import Mathlib

/-!
Verification of the stack-membership classifier and its pinned-reference
wrapper (src/lib.rs of the `unforgettable` crate), shallowly embedded in
Lean 4.  Machine pointers are modelled as natural-number addresses plus
explicit fat-pointer metadata; the ambient machine state (memory contents,
current stack pointer, stack growth direction) is passed explicitly, since
the Rust code reads the stack pointer and growth direction through the
`psm` crate on every call.
-/

namespace Unforgettable

/-- Stack growth direction, mirroring `psm::StackDirection`: stacks grow
toward higher addresses (`Ascending`) or toward lower addresses
(`Descending`). -/
inductive StackDirection
  | Ascending
  | Descending
  deriving DecidableEq, Repr

/-- Fat-pointer metadata of a Rust raw pointer `*const T` with `T: ?Sized`:
a thin pointer (sized pointee), a slice length, or a vtable address. -/
inductive PtrMeta
  | thin
  | length (n : Nat)
  | vtable (v : Nat)
  deriving DecidableEq, Repr

/-- A Rust raw pointer `*const T`: a numeric data address together with its
(possibly trivial) fat-pointer metadata. -/
structure Pointer where
  addr : Nat
  metadata : PtrMeta
  deriving DecidableEq, Repr

/-- The cast `pointer as *const () as usize` of the source: casting a fat
pointer to a thin pointer and then to `usize` keeps only the data address,
discarding any length or vtable metadata. -/
def Pointer.toUsize (p : Pointer) : Nat := p.addr

/-- The ambient machine state read (but never written) by the classifier:
the contents of memory at every address, the calling thread's current stack
pointer (`psm::stack_pointer() as usize`), and the platform's stack growth
direction (`psm::StackDirection::new()`). -/
structure MachineState where
  mem : Nat → Nat
  stack_pointer : Nat
  dir : StackDirection

/-- Embedding of `is_stack_pointer` (src/lib.rs lines 26-35): produce true
if the given pointer is on the stack.  The pointer is cast to `usize`, the
current stack pointer is read, and a single two-way match on the growth
direction selects the comparison. -/
def is_stack_pointer (st : MachineState) (p : Pointer) : Bool :=
  let pointer := p.toUsize
  let stack_pointer := st.stack_pointer
  match st.dir with
  | StackDirection.Ascending => decide (pointer ≤ stack_pointer)
  | StackDirection.Descending => decide (pointer ≥ stack_pointer)

/-- A pinned reference `Pin<P>`: the handle guards a pointer to the pinned
value's backing memory. -/
structure Pin where
  pointer : Pointer
  deriving DecidableEq, Repr

/-- `Pin::as_ref`: reborrow the pinned handle (`Pin<P> -> Pin<&T>`); the
guarded address is unchanged. -/
def Pin.as_ref (pinned : Pin) : Pin := pinned

/-- `Pin::get_ref`: extract the bare reference guarded by the pin. -/
def Pin.get_ref (pinned : Pin) : Pointer := pinned.pointer

/-- Embedding of `is_unforgettable` (src/lib.rs lines 19-23): unwrap the
pinned reference to its bare pointer and forward to the classifier. -/
def is_unforgettable (st : MachineState) (pinned : Pin) : Bool :=
  let pointer := pinned.as_ref.get_ref
  is_stack_pointer st pointer

/-- Modelled from the spec: an address "lies on the already-allocated side
of the current stack pointer for the platform's growth direction" — between
the stack pointer and the stack's high starting address when descending,
at or below the stack pointer when ascending. -/
def onAllocatedSide (addr sp : Nat) (dir : StackDirection) : Bool :=
  match dir with
  | StackDirection.Ascending => decide (addr ≤ sp)
  | StackDirection.Descending => decide (addr ≥ sp)

/-- Modelled from the spec: an address "lies on the unallocated side of the
current stack pointer for the platform's growth direction" — strictly past
the stack pointer in the direction the stack has not yet grown. -/
def onUnallocatedSide (addr sp : Nat) (dir : StackDirection) : Bool :=
  match dir with
  | StackDirection.Ascending => decide (addr > sp)
  | StackDirection.Descending => decide (addr < sp)

/-- Modelled from the spec: where a pinned value's backing memory lives —
as a local variable on the calling thread's stack, or in an independently
owned heap allocation. -/
inductive Residence
  | stack
  | heap
  deriving DecidableEq, Repr

/-- Modelled from the spec (and the crate's test, src/lib.rs lines 37-71):
one run of the canonical scenario.  A droppable value with residence
`residence` and data address `addr` is pinned while the stack pointer is
`sp` and the growth direction is `dir`; `forgets` records whether the
caller then extracts the inner value from the pin and deliberately
discards it without running its destructor, before the current frame
terminates normally. -/
structure Scenario where
  residence : Residence
  addr : Nat
  sp : Nat
  dir : StackDirection
  forgets : Bool

/-- A scenario is consistent when its residence agrees with its address:
a stack local sits on the already-allocated side of the stack pointer, and
an independent heap allocation does not. -/
def Scenario.consistent (s : Scenario) : Prop :=
  (s.residence = Residence.stack → onAllocatedSide s.addr s.sp s.dir = true) ∧
  (s.residence = Residence.heap → onAllocatedSide s.addr s.sp s.dir = false)

/-- Modelled from the spec: whether the pinned value's destructor runs
under normal (non-aborting) termination of the current frame.  Forgetting
the inner value extracted from a pin of a stack local only forgets a
reference; the local itself stays in its frame and is dropped when the
frame unwinds.  Forgetting an owned heap value (the box extracted from the
pin) skips its destructor entirely. -/
def destructorRuns (s : Scenario) : Bool :=
  match s.residence with
  | Residence.stack => true
  | Residence.heap => !s.forgets

/-- The source classifier agrees with the spec-modelled allocated-side
predicate on every address, stack pointer, direction, memory contents and
metadata. -/
theorem is_unforgettable_eq_onAllocatedSide (mem : Nat → Nat) (a sp : Nat)
    (m : PtrMeta) (dir : StackDirection) :
    is_unforgettable ⟨mem, sp, dir⟩ ⟨⟨a, m⟩⟩ = onAllocatedSide a sp dir := by
  cases dir <;> rfl

/-- C1: for every candidate address and stack-pointer value (pointer-width
unsigned integers modelled as naturals), the classifier returns true iff
`address >= stack_pointer` under the descending growth direction, and iff
`address <= stack_pointer` under the ascending growth direction — for any
memory contents and any pointer metadata. -/
theorem classifier_iff_spec (mem : Nat → Nat) (a sp : Nat) (m : PtrMeta) :
    (is_stack_pointer ⟨mem, sp, StackDirection.Descending⟩ ⟨a, m⟩ = true ↔ a ≥ sp) ∧
    (is_stack_pointer ⟨mem, sp, StackDirection.Ascending⟩ ⟨a, m⟩ = true ↔ a ≤ sp) := by
  constructor <;> simp [is_stack_pointer, Pointer.toUsize]

/-- C2: `is_unforgettable` extracts the bare pointer guarded by the pin
(via `as_ref` and `get_ref`) and returns exactly the classifier's verdict
on it, unmodified. -/
theorem wrapper_passthrough (st : MachineState) (pinned : Pin) :
    is_unforgettable st pinned = is_stack_pointer st pinned.as_ref.get_ref := rfl

/-- C3: in every consistent scenario, a true verdict from
`is_unforgettable` implies the pinned value's destructor runs under normal
termination of the current frame, even when the caller extracts the inner
value from the pin and deliberately forgets it; and a false verdict does
not mean the destructor will not run — there is a consistent scenario with
a false verdict whose destructor runs anyway. -/
theorem unforgettable_true_implies_destructor_runs :
    (∀ (s : Scenario) (mem : Nat → Nat), s.consistent →
      is_unforgettable ⟨mem, s.sp, s.dir⟩ ⟨⟨s.addr, PtrMeta.thin⟩⟩ = true →
      destructorRuns s = true) ∧
    (∃ (s : Scenario) (mem : Nat → Nat), s.consistent ∧
      is_unforgettable ⟨mem, s.sp, s.dir⟩ ⟨⟨s.addr, PtrMeta.thin⟩⟩ = false ∧
      destructorRuns s = true) := by
  constructor
  · intro s mem hc hv
    rw [is_unforgettable_eq_onAllocatedSide] at hv
    cases hres : s.residence with
    | stack => simp [destructorRuns, hres]
    | heap => exact absurd hv (by simp [hc.2 hres])
  · exact ⟨⟨Residence.heap, 0, 1, StackDirection.Descending, false⟩, fun _ => 0,
      And.intro (fun h => nomatch h) (fun _ => rfl), rfl, rfl⟩

/-- C3 witness: in the concrete consistent scenario of a stack local at
address 5 with stack pointer 3 (descending), the destructor runs. -/
theorem unforgettable_true_implies_destructor_runs_witness :
    destructorRuns ⟨Residence.stack, 5, 3, StackDirection.Descending, true⟩ = true :=
  unforgettable_true_implies_destructor_runs.1
    ⟨Residence.stack, 5, 3, StackDirection.Descending, true⟩ (fun _ => 0)
    (And.intro (fun _ => rfl) (fun h => nomatch h)) rfl

/-- C4: a value whose address lies on the already-allocated side of the
current stack pointer for the platform's growth direction (a stack local
pinned in place) is classified unforgettable: `is_unforgettable` returns
true. -/
theorem stack_allocated_implies_true (mem : Nat → Nat) (addr sp : Nat)
    (m : PtrMeta) (dir : StackDirection)
    (h : onAllocatedSide addr sp dir = true) :
    is_unforgettable ⟨mem, sp, dir⟩ ⟨⟨addr, m⟩⟩ = true := by
  cases dir <;> simpa [is_unforgettable, is_stack_pointer, Pin.as_ref,
    Pin.get_ref, Pointer.toUsize, onAllocatedSide] using h

/-- C4 witness: address 5, stack pointer 3, descending growth: the pinned
value is classified unforgettable. -/
theorem stack_allocated_implies_true_witness :
    is_unforgettable ⟨fun _ => 0, 3, StackDirection.Descending⟩
      ⟨⟨5, PtrMeta.thin⟩⟩ = true :=
  stack_allocated_implies_true (fun _ => 0) 5 3 PtrMeta.thin
    StackDirection.Descending (by decide)

/-- C5: a value whose address lies on the unallocated side of the current
stack pointer for the platform's growth direction (an independent heap
allocation) is classified forgettable: `is_unforgettable` returns
false. -/
theorem heap_allocated_implies_false (mem : Nat → Nat) (addr sp : Nat)
    (m : PtrMeta) (dir : StackDirection)
    (h : onUnallocatedSide addr sp dir = true) :
    is_unforgettable ⟨mem, sp, dir⟩ ⟨⟨addr, m⟩⟩ = false := by
  rw [is_unforgettable_eq_onAllocatedSide]
  cases dir <;> simp only [onAllocatedSide, onUnallocatedSide,
    decide_eq_true_eq, decide_eq_false_iff_not] at h ⊢ <;> omega

/-- C5 witness: address 2, stack pointer 3, descending growth: the pinned
value is classified forgettable. -/
theorem heap_allocated_implies_false_witness :
    is_unforgettable ⟨fun _ => 0, 3, StackDirection.Descending⟩
      ⟨⟨2, PtrMeta.thin⟩⟩ = false :=
  heap_allocated_implies_false (fun _ => 0) 2 3 PtrMeta.thin
    StackDirection.Descending (by decide)

/-- C6: on every fixed address/stack-pointer pair the descending branch is
the comparison `address >= stack_pointer` and the ascending branch is the
comparison `address <= stack_pointer`, so flipping the growth direction
flips the comparison operator; equivalently, the ascending result on
(address, sp) equals the descending result with the comparison's two
arguments reversed. -/
theorem direction_sensitivity (mem : Nat → Nat) (a sp : Nat) (m : PtrMeta) :
    (is_stack_pointer ⟨mem, sp, StackDirection.Descending⟩ ⟨a, m⟩ = decide (a ≥ sp)) ∧
    (is_stack_pointer ⟨mem, sp, StackDirection.Ascending⟩ ⟨a, m⟩ = decide (a ≤ sp)) ∧
    (is_stack_pointer ⟨mem, sp, StackDirection.Ascending⟩ ⟨a, m⟩ =
      is_stack_pointer ⟨mem, a, StackDirection.Descending⟩ ⟨sp, m⟩) := by
  refine ⟨rfl, rfl, ?_⟩
  simp [is_stack_pointer, Pointer.toUsize, ge_iff_le]

/-- C7: the classification is a pure function of the triple (candidate
address, stack pointer, growth direction): two calls agree whenever those
three coincide, regardless of memory contents, pointer metadata, or any
other state. -/
theorem classification_pure (st₁ st₂ : MachineState) (p₁ p₂ : Pointer)
    (hsp : st₁.stack_pointer = st₂.stack_pointer) (hdir : st₁.dir = st₂.dir)
    (haddr : p₁.toUsize = p₂.toUsize) :
    is_stack_pointer st₁ p₁ = is_stack_pointer st₂ p₂ := by
  simp [is_stack_pointer, hsp, hdir, haddr]

/-- C7 witness: two calls with the same address 7, stack pointer 4 and
descending direction agree even though memory contents and pointer
metadata differ. -/
theorem classification_pure_witness :
    is_stack_pointer ⟨fun _ => 0, 4, StackDirection.Descending⟩ ⟨7, PtrMeta.thin⟩ =
      is_stack_pointer ⟨fun _ => 1, 4, StackDirection.Descending⟩
        ⟨7, PtrMeta.length 9⟩ :=
  classification_pure _ _ _ _ rfl rfl rfl

/-- C8: the classifier is total: on every input (the null address 0
included) it returns a boolean; its value is exactly the single two-way
match on the growth direction with one numeric comparison per branch and
no other branch or error path; and it never dereferences the candidate
address — the result is independent of the contents of memory. -/
theorem classifier_total (st : MachineState) (p : Pointer) :
    (is_stack_pointer st p = true ∨ is_stack_pointer st p = false) ∧
    (is_stack_pointer st p =
      match st.dir with
      | StackDirection.Ascending => decide (p.toUsize ≤ st.stack_pointer)
      | StackDirection.Descending => decide (p.toUsize ≥ st.stack_pointer)) ∧
    (∀ mem' : Nat → Nat,
      is_stack_pointer ⟨mem', st.stack_pointer, st.dir⟩ p = is_stack_pointer st p) := by
  refine ⟨?_, rfl, fun mem' => rfl⟩
  cases h : is_stack_pointer st p
  · exact Or.inr rfl
  · exact Or.inl rfl

/-- C9: an address exactly equal to the stack pointer is classified
stack-resident under both growth directions, and for every
address/stack-pointer pair at least one of the two directions classifies
the address as stack-resident. -/
theorem boundary_inclusive (mem : Nat → Nat) (sp : Nat) (m : PtrMeta) :
    (is_stack_pointer ⟨mem, sp, StackDirection.Ascending⟩ ⟨sp, m⟩ = true ∧
     is_stack_pointer ⟨mem, sp, StackDirection.Descending⟩ ⟨sp, m⟩ = true) ∧
    (∀ a : Nat,
      is_stack_pointer ⟨mem, sp, StackDirection.Ascending⟩ ⟨a, m⟩ = true ∨
      is_stack_pointer ⟨mem, sp, StackDirection.Descending⟩ ⟨a, m⟩ = true) := by
  refine ⟨⟨?_, ?_⟩, fun a => ?_⟩ <;>
    simp [is_stack_pointer, Pointer.toUsize, ge_iff_le]
  exact Nat.le_total a sp

/-- C10: the cast to `usize` keeps only the data address, discarding any
length or vtable metadata, so any two pinned references whose data
addresses are numerically equal receive the same verdict in every machine
state, regardless of metadata. -/
theorem metadata_independent :
    (∀ (a : Nat) (m : PtrMeta), Pointer.toUsize ⟨a, m⟩ = a) ∧
    (∀ (st : MachineState) (p₁ p₂ : Pin), p₁.pointer.addr = p₂.pointer.addr →
      is_unforgettable st p₁ = is_unforgettable st p₂) := by
  refine ⟨fun a m => rfl, fun st p₁ p₂ h => ?_⟩
  simp [is_unforgettable, is_stack_pointer, Pin.as_ref, Pin.get_ref,
    Pointer.toUsize, h]

/-- C10 witness: a thin pointer and a trait-object pointer at the same
address 1 receive the same verdict with stack pointer 2, ascending. -/
theorem metadata_independent_witness :
    is_unforgettable ⟨fun _ => 0, 2, StackDirection.Ascending⟩
        ⟨⟨1, PtrMeta.thin⟩⟩ =
      is_unforgettable ⟨fun _ => 0, 2, StackDirection.Ascending⟩
        ⟨⟨1, PtrMeta.vtable 8⟩⟩ :=
  metadata_independent.2 ⟨fun _ => 0, 2, StackDirection.Ascending⟩
    ⟨⟨1, PtrMeta.thin⟩⟩ ⟨⟨1, PtrMeta.vtable 8⟩⟩ rfl

end Unforgettable
